import Mathlib

/-!
Shallow embedding of the Interaction & State-Resolution Engine of the
`dream-up` repository (`src/agent/interaction-engine.ts`, plus the timeout
configuration of `src/config/config-loader.ts` / `default-config.ts`).

Modelling conventions:
* Machine time is modelled ideally: `session.wait(ms)` takes exactly `ms`
  milliseconds and every other engine-side statement takes zero time, so the
  elapsed time read by `Date.now() - startTime` at a program point is the sum
  of the waits performed so far.  Where a claim depends on the elapsed time at
  the start of an action, that value is an explicit parameter (an oracle).
* Promise rejections / thrown `Error` objects are modelled as
  `Except String _` values carrying the error message.
* The outcomes of remote-session calls (DOM queries, clicks, keypresses) are
  abstract inputs supplied to each function, since they depend on the live
  page; the engine-side control flow around them is translated faithfully.
* JS strings: `trim`, `toLowerCase`, `includes` and `replace(/\s+/g, ' ')`
  are implemented on character lists (ASCII case folding, which covers every
  vocabulary word the engine matches on).
-/

namespace DreamUp

set_option maxRecDepth 8192

/-- ASCII whitespace, modelling the characters the engine's regexes written
with `\s` meet in practice (button labels and element texts). -/
def wsChar (c : Char) : Bool :=
  c == ' ' || c == '\t' || c == '\n' || c == '\r'

/-- ASCII lower casing of one character (JS `toLowerCase` restricted to the
ASCII range, which covers the engine's keyword vocabulary). -/
def lowerChar (c : Char) : Char :=
  match c with
  | 'A' => 'a' | 'B' => 'b' | 'C' => 'c' | 'D' => 'd' | 'E' => 'e'
  | 'F' => 'f' | 'G' => 'g' | 'H' => 'h' | 'I' => 'i' | 'J' => 'j'
  | 'K' => 'k' | 'L' => 'l' | 'M' => 'm' | 'N' => 'n' | 'O' => 'o'
  | 'P' => 'p' | 'Q' => 'q' | 'R' => 'r' | 'S' => 's' | 'T' => 't'
  | 'U' => 'u' | 'V' => 'v' | 'W' => 'w' | 'X' => 'x' | 'Y' => 'y'
  | 'Z' => 'z'
  | c => c

/-- JS `String.prototype.toLowerCase` (ASCII fragment). -/
def strLower (s : String) : String :=
  String.mk (s.data.map lowerChar)

/-- JS `String.prototype.trim`: strip whitespace from both ends. -/
def strTrim (s : String) : String :=
  String.mk (((s.data.dropWhile wsChar).reverse.dropWhile wsChar).reverse)

/-- Character-list test: the first list is an initial segment of the second. -/
def isPreOf : List Char → List Char → Bool
  | [], _ => true
  | _ :: _, [] => false
  | a :: as, b :: bs => a == b && isPreOf as bs

/-- Character-list test: the first list occurs contiguously in the second. -/
def hasSubList (pat : List Char) : List Char → Bool
  | [] => pat.isEmpty
  | c :: rest => isPreOf pat (c :: rest) || hasSubList pat rest

/-- JS `String.prototype.includes`. -/
def strContains (s pat : String) : Bool :=
  hasSubList pat.data s.data

/-- Auxiliary for `collapseWs`: the flag records whether the previous
character was whitespace (so a run is replaced by one space). -/
def collapseWsAux : Bool → List Char → List Char
  | _, [] => []
  | prevWs, c :: rest =>
    if wsChar c then
      if prevWs then collapseWsAux true rest
      else ' ' :: collapseWsAux true rest
    else c :: collapseWsAux false rest

/-- JS `replace(/\s+/g, ' ')`: collapse every whitespace run to one space. -/
def collapseWs (l : List Char) : List Char :=
  collapseWsAux false l

/-! ## Error messages raised by the engine (verbatim from the source) -/

/-- Message of the per-action timeout error
(`Action timeout exceeded (${this.timeouts.action}s)`). -/
def actionTimeoutMsg (s : Nat) : String :=
  "Action timeout exceeded (" ++ toString s ++ "s)"

/-- Message of the total-script timeout error
(`Total execution timeout exceeded (${this.timeouts.total}s)`). -/
def totalTimeoutMsg (t : Nat) : String :=
  "Total execution timeout exceeded (" ++ toString t ++ "s)"

/-- Message with which `timeoutPromise(ms)` rejects. -/
def raceTimeoutMsg : String := "Action timeout"

/-- Message of the click-descriptor validation error. -/
def clickReqMsg : String :=
  "Click action requires either a selector or x/y coordinates"

/-- Message of the keypress-descriptor validation error. -/
def keyReqMsg : String := "Keypress action requires a key"

/-! ## Action descriptors (`ActionConfig` of `src/types/config.ts`) -/

/-- Action descriptor. `duration` is in whole seconds (`duration?: number`);
`x`/`y` are the optional normalized click coordinates, abstracted to `Nat`
since only their presence matters to the embedded control flow. -/
inductive ActionConfig where
  | wait (duration : Option Nat)
  | click (selector : Option String) (x : Option Nat) (y : Option Nat)
  | keypress (key : Option String) (rep : Option Nat)
  | screenshot (label : Option String)
deriving Repr, DecidableEq

/-- JS truthiness of an optional string (`!action.selector`): absent or empty
strings are falsy. -/
def strFalsy : Option String → Bool
  | none => true
  | some "" => true
  | some _ => false

/-- Result of running one action's body: the propagated-or-ok outcome together
with the number of click calls the session received. -/
structure ActOutcome where
  result : Except String Unit
  clicks : Nat
deriving Repr

/-- The `wait` branch of `executeAction` under the ideal time model.
`actionS` is `timeouts.action` (seconds), `durReq` the descriptor's
`duration`, `e0` the elapsed milliseconds when the branch is entered
(0 in the engine, since `startTime` is taken on entry).  Returns the elapsed
time at the end of the branch, or the raised error.  Mirrors
`interaction-engine.ts` lines 141-159 plus the final elapsed check of lines
509-513. -/
def execWaitInner (actionS : Nat) (durReq : Option Nat) (e0 : Nat) :
    Except String Nat :=
  let actionTimeout := actionS * 1000
  -- checkTimeout(): `Date.now() - startTime > actionTimeout`
  if e0 > actionTimeout then .error (actionTimeoutMsg actionS)
  else
    -- `const duration = (action.duration || 1) * 1000`
    let duration := (match durReq with
      | none => 1
      | some 0 => 1
      | some d => d) * 1000
    -- `const remaining = actionTimeout - elapsed - 1000` (1s buffer)
    let remaining : Int := (actionTimeout : Int) - (e0 : Int) - 1000
    if remaining ≤ 0 then .error (actionTimeoutMsg actionS)
    else
      -- `const actualWait = Math.min(duration, remaining)`
      let actualWait := min duration remaining.toNat
      if actualWait > 0 then
        -- `Promise.race([session.wait(actualWait), timeoutPromise(actionTimeout - elapsed)])`
        if e0 + actualWait < actionTimeout then
          -- the wait resolves first; then the final elapsed check
          if e0 + actualWait > actionTimeout then
            .error (actionTimeoutMsg actionS)
          else .ok (e0 + actualWait)
        else .error raceTimeoutMsg
      else
        if e0 > actionTimeout then .error (actionTimeoutMsg actionS)
        else .ok e0

/-- The body of `executeAction` (the `try` block): branch dispatch with the
descriptor validations; the session-dependent remainder of the `click`,
`keypress` and `screenshot` branches is abstracted by the oracle `env`. -/
def executeActionInner (a : ActionConfig) (actionS : Nat) (e0 : Nat)
    (env : ActOutcome) : ActOutcome :=
  match a with
  | .wait d =>
    { result := (execWaitInner actionS d e0).map fun _ => (), clicks := 0 }
  | .click sel x y =>
    -- `if (!action.selector && (action.x === undefined || action.y === undefined))`
    if strFalsy sel && (x == none || y == none) then
      { result := .error clickReqMsg, clicks := 0 }
    else env
  | .keypress k _ =>
    -- `if (!action.key)`
    if strFalsy k then { result := .error keyReqMsg, clicks := 0 }
    else env
  | .screenshot _ => env

/-- `executeAction` including its `catch` clause (lines 515-521): an error is
re-thrown exactly when its message contains `'timeout'`; every other error is
logged and swallowed. -/
def executeActionCaught (a : ActionConfig) (actionS : Nat) (e0 : Nat)
    (env : ActOutcome) : ActOutcome :=
  let inner := executeActionInner a actionS e0 env
  match inner.result with
  | .ok _ => { result := .ok (), clicks := inner.clicks }
  | .error e =>
    if strContains e "timeout" then { result := .error e, clicks := inner.clicks }
    else { result := .ok (), clicks := inner.clicks }

/-! ## The `executeActions` loop -/

/-- One script entry as the loop sees it: the descriptor, the abstract session
outcome of its body, the wall-clock elapsed (ms) when the loop's total-timeout
check for this action runs, and whether `handleLevelNavigation` would succeed
if invoked here. -/
structure ScriptStep where
  action : ActionConfig
  env : ActOutcome
  preElapsed : Nat
  navWouldSucceed : Bool

/-- Observable outcome of `executeActions`: how many actions had
`executeAction` invoked, at which loop indices `handleLevelNavigation` was
invoked, the final navigation count, the total click calls, and the
propagated result. -/
structure RunResult where
  executed : Nat
  navInvoked : List Nat
  navCount : Nat
  clicks : Nat
  outcome : Except String Unit
deriving Repr

/-- `executeActions` (lines 84-115): before each action the aggregate
elapsed time is checked against `timeouts.total * 1000`; then the action runs
(errors propagate); then, when `i % 4 === 0 && levelNavigationCount <
maxLevelNavigations` (with `maxLevelNavigations = 2`), `handleLevelNavigation`
is invoked and a success increments the count. -/
def runScript (totalS actionS : Nat) :
    List ScriptStep → Nat → Nat → RunResult
  | [], _, navCount =>
    { executed := 0, navInvoked := [], navCount := navCount, clicks := 0,
      outcome := .ok () }
  | st :: rest, i, navCount =>
    if st.preElapsed > totalS * 1000 then
      { executed := 0, navInvoked := [], navCount := navCount, clicks := 0,
        outcome := .error (totalTimeoutMsg totalS) }
    else
      let out := executeActionCaught st.action actionS 0 st.env
      match out.result with
      | .error e =>
        { executed := 1, navInvoked := [], navCount := navCount,
          clicks := out.clicks, outcome := .error e }
      | .ok _ =>
        if i % 4 == 0 && decide (navCount < 2) then
          let navCount1 := if st.navWouldSucceed then navCount + 1 else navCount
          let r := runScript totalS actionS rest (i + 1) navCount1
          { executed := r.executed + 1, navInvoked := i :: r.navInvoked,
            navCount := r.navCount, clicks := out.clicks + r.clicks,
            outcome := r.outcome }
        else
          let r := runScript totalS actionS rest (i + 1) navCount
          { executed := r.executed + 1, navInvoked := r.navInvoked,
            navCount := r.navCount, clicks := out.clicks + r.clicks,
            outcome := r.outcome }

/-! ## The State Classifier (`isGamePlaying`, lines 882-1089) -/

/-- Outcome of sampling the canvas in the in-page script: a 2d context whose
sampled region has a nonzero alpha pixel (`drawnContent`); a 2d context whose
sample is fully transparent (`blankContent`); a canvas whose context or image
data throws, e.g. WebGL (`sampleError`); or `getContext('2d')` returning null
(`noContext`). -/
inductive CanvasSample where
  | drawnContent | blankContent | sampleError | noContext
deriving Repr, DecidableEq

/-- A canvas element (the page's, or the first accessible iframe's). -/
structure CanvasElem where
  width : Nat
  height : Nat
  sample : CanvasSample
deriving Repr, DecidableEq

/-- A child of a board/grid-like element, or a tile/cell/piece/block element:
the style-derived facts the classifier reads.  `hiddenStyle` covers
`display:none` / `visibility:hidden` / `opacity:0`; `hasColor` covers the
non-default background-color checks; `hasSize` the positive bounding box. -/
structure ChildElem where
  hiddenStyle : Bool
  text : String
  hasColor : Bool
  hasSize : Bool
deriving Repr, DecidableEq

/-- A modal/overlay/tutorial/welcome/dialog-like element with its visibility
and the texts of the buttons it contains. -/
structure ModalElem where
  visible : Bool
  buttonTexts : List String
deriving Repr, DecidableEq

/-- Everything the classifier's injected script reads from the page. -/
structure PageState where
  scoreTexts : List String
  canvas : Option CanvasElem
  boardChildren : List (List ChildElem)
  tiles : List ChildElem
  modals : List ModalElem

/-- Signal 1 predicate on one score/counter element's (trimmed) text:
`text && text !== '0' && text !== 'Score: 0' && text !== '0 pts' &&
!text.match(/^0\s*$/)`. -/
def scoreActive (t : String) : Bool :=
  let s := strTrim t
  !(s == "") && !(s == "0") && !(s == "Score: 0") && !(s == "0 pts")

/-- Signal 3 text test on a (trimmed) child text: nonempty and not `"0"`. -/
def contentText (t : String) : Bool :=
  let s := strTrim t
  !(s == "") && !(s == "0")

/-- Signal 3 predicate on a board child / tile element: visible, has a
positive box, and bears nontrivial text or a non-default background color. -/
def childHasContent (c : ChildElem) : Bool :=
  !c.hiddenStyle && (contentText c.text || c.hasColor) && c.hasSize

/-- Signal 2: the early `return true` inside the canvas block — taken when a
positively-sized canvas has drawn content or cannot be sampled. -/
def canvasSignal : Option CanvasElem → Bool
  | none => false
  | some ci =>
    ci.width > 0 && ci.height > 0 &&
      (match ci.sample with
       | .drawnContent => true
       | .sampleError => true
       | .blankContent => false
       | .noContext => false)

/-- Signal 3 (`hasGameContent`): some board has at least one child with
content, or some tile/cell/piece/block element has content. -/
def hasGameContent (p : PageState) : Bool :=
  p.boardChildren.any (fun b => Nat.ble 1 (b.countP (childHasContent ·))) ||
    p.tiles.any childHasContent

/-- Step-4 vocabulary test on one button's text (trimmed, lower-cased). -/
def tutorialKeyword (t : String) : Bool :=
  let s := strLower (strTrim t)
  strContains s "tutorial" || strContains s "welcome" ||
    strContains s "how to play" || strContains s "learn"

/-- Step 4 (`hasBlockingModal`): a visible modal-like element containing a
button whose text matches the tutorial vocabulary. -/
def hasBlockingModal (p : PageState) : Bool :=
  p.modals.any fun m => m.visible && m.buttonTexts.any tutorialKeyword

/-- Signal 1 (`hasActiveScore`). -/
def hasActiveScore (p : PageState) : Bool :=
  p.scoreTexts.any scoreActive

/-- The classifier's injected script (lines 896-1076): computes signal 1,
early-returns `true` from the canvas block of signal 2, otherwise computes
signals 3 and 4 and returns
`(hasActiveScore || hasGameContent) && !hasBlockingModal`. -/
def isGamePlayingCore (p : PageState) : Bool :=
  let score := hasActiveScore p
  if canvasSignal p.canvas then true
  else (score || hasGameContent p) && !hasBlockingModal p

/-- Modelled from the spec: claim C3's sentence "Result = Playing iff
(signal 1 or 3) and no blocking tutorial found" as a predicate on the same
page data, for comparison with `isGamePlayingCore`. -/
def claimC3Playing (p : PageState) : Bool :=
  (hasActiveScore p || hasGameContent p) && !hasBlockingModal p

/-- Outcome of the raced page evaluation inside `isGamePlaying`: the parsed
page state, a rejection, or the `timeoutMs` timer resolving `false` first. -/
inductive EvalResult where
  | ok (p : PageState)
  | err (msg : String)
  | timedOut

/-- `isGamePlaying` without its outermost `catch`: the liveness probe
(`evaluate('document.body')`) with its closed-message check, then the
evaluation raced against the `timeoutMs` timer. -/
def isGamePlayingBody (liveness : Except String Unit) (ev : EvalResult) :
    Except String Bool :=
  match liveness with
  | .error e =>
    if strContains e "closed" then .ok false else .error e
  | .ok _ =>
    match ev with
    | .err m => .error m
    | .timedOut => .ok false
    | .ok p => .ok (isGamePlayingCore p)

/-- `isGamePlaying` as callers see it: the outermost `catch` turns any raised
error into `false`. -/
def isGamePlayingSafe (liveness : Except String Unit) (ev : EvalResult) :
    Bool :=
  match isGamePlayingBody liveness ev with
  | .ok b => b
  | .error _ => false

/-! ## Overlay Resolver button priorities (`handleModalsAndDialogs`) -/

/-- Normalization applied to a modal button's text before keyword matching:
`replace(/\s+/g, ' ').trim().toLowerCase()`. -/
def normBtn (t : String) : String :=
  strLower (strTrim (String.mk (collapseWs t.data)))

/-- The `buttonPriority` table of lines 2863-2869, evaluated in order with
first match winning (lines 2872-2880); unmatched texts get 999. -/
def buttonPriorityOf (t : String) : Nat :=
  let s := normBtn t
  if strContains s "start new game" then 1
  else if strContains s "new game" then 2
  else if strContains s "skip" || strContains s "got it" then 3
  else if strContains s "play" || strContains s "start" || strContains s "begin" then 4
  else if strContains s "ok" || strContains s "continue" || strContains s "next" then 5
  else 999

/-- The possible values of `buttonPriorityOf`. -/
def modalPriorityVals : List Nat := [1, 2, 3, 4, 5, 999]

/-- The order in which `handleModalsAndDialogs` attempts the candidate
buttons: the JS stable sort by ascending `priority` (lines 2882-2885),
realized as bucket concatenation over the possible priority values. -/
def modalAttemptOrder (texts : List String) : List String :=
  modalPriorityVals.flatMap fun p =>
    texts.filter fun t => buttonPriorityOf t == p

/-- Modelled from the spec: the tier assignment claim C4 asserts, highest
tier first — (1) "start new game"; (2) skip/dismiss/"got it"/"no thanks";
(3) play/start/begin; (4) ok/continue/next. -/
def claimTierOf (t : String) : Nat :=
  let s := normBtn t
  if strContains s "start new game" then 1
  else if strContains s "skip" || strContains s "dismiss" ||
      strContains s "got it" || strContains s "no thanks" then 2
  else if strContains s "play" || strContains s "start" || strContains s "begin" then 3
  else if strContains s "ok" || strContains s "continue" || strContains s "next" then 4
  else 999

/-! ## Nested overlay resolver (`handleNestedModal`, lines 3312-3432) -/

/-- The `priorityOrder` list of line 3393. -/
def nestedPriorityList : List String :=
  ["start new game", "yes", "confirm", "start", "ok", "new game",
   "continue", "no", "cancel"]

/-- Priority of a nested-modal button: index of the first entry of
`priorityOrder` its lower-cased text contains, else 999 (lines 3394-3401). -/
def nestedPriorityOf (t : String) : Nat :=
  match nestedPriorityList.findIdx? (fun p => strContains (strLower t) p) with
  | some i => i
  | none => 999

/-- The possible values of `nestedPriorityOf`. -/
def nestedPriorityVals : List Nat := [0, 1, 2, 3, 4, 5, 6, 7, 8, 999]

/-- The nested resolver's stable sort of the button texts by ascending
priority, as bucket concatenation. -/
def nestedAttemptOrder (texts : List String) : List String :=
  nestedPriorityVals.flatMap fun p =>
    texts.filter fun t => nestedPriorityOf t == p

/-- What one invocation of the nested resolver observes on the page: whether
a visible modal with buttons is present, the texts of the in-modal buttons,
and which texts `clickByText` would succeed on. -/
structure ModalRound where
  hasNewModal : Bool
  buttons : List String
  clickSucceeds : String → Bool

/-- Instrumented result of `handleNestedModal`: the returned boolean, the
number of invocations that actually inspected the page (the recursion depth
used), and the number of successful button activations performed. -/
structure NestedResult where
  handled : Bool
  depth : Nat
  activations : Nat
deriving Repr, DecidableEq

/-- `handleNestedModal(maxDepth)`: `maxDepth <= 0` returns false at once;
otherwise, if a modal with buttons is visible, the buttons are tried in
nested priority order until one click succeeds, after which the function
recurses with `maxDepth - 1` (at the next page state) and returns true.
`env k` is the page as seen by the `k`-th invocation — adversarial, possibly
cyclic. -/
def nestedModalRun (env : Nat → ModalRound) : Nat → Nat → NestedResult
  | _, 0 => { handled := false, depth := 0, activations := 0 }
  | k, d + 1 =>
    let r := env k
    if !r.hasNewModal then { handled := false, depth := 1, activations := 0 }
    else
      match (nestedAttemptOrder r.buttons).find? r.clickSucceeds with
      | none => { handled := false, depth := 1, activations := 0 }
      | some _ =>
        let deeper := nestedModalRun env (k + 1) d
        { handled := true, depth := deeper.depth + 1,
          activations := deeper.activations + 1 }

/-! ## Timeout configuration (`config-loader.ts`, `default-config.ts`) -/

/-- `TimeoutConfig` of `src/types/config.ts` (whole seconds). -/
structure TimeoutConfig where
  load : Nat
  action : Nat
  total : Nat
deriving Repr, DecidableEq

/-- `defaultConfig.timeouts` of `src/config/default-config.ts`. -/
def defaultTimeouts : TimeoutConfig :=
  { load := 30, action := 20, total := 300 }

/-- The timeout part of `loadConfig` (lines 11-33 of `config-loader.ts`):
each field of the file's `timeouts` is taken when present, else the default;
no cross-field validation is performed. -/
def loadTimeouts (fileLoad fileAction fileTotal : Option Nat) : TimeoutConfig :=
  { load := fileLoad.getD defaultTimeouts.load,
    action := fileAction.getD defaultTimeouts.action,
    total := fileTotal.getD defaultTimeouts.total }

/-! ## Helper lemmas -/

theorem isPreOf_append {pat l : List Char} (l2 : List Char)
    (h : isPreOf pat l = true) : isPreOf pat (l ++ l2) = true := by
  induction pat generalizing l with
  | nil => rfl
  | cons a as ih =>
    cases l with
    | nil => simp [isPreOf] at h
    | cons b bs =>
      simp only [isPreOf, Bool.and_eq_true] at h
      simp only [List.cons_append, isPreOf, Bool.and_eq_true]
      exact ⟨h.1, ih h.2⟩

theorem hasSubList_append (pat l l2 : List Char)
    (h : hasSubList pat l = true) : hasSubList pat (l ++ l2) = true := by
  induction l with
  | nil =>
    cases pat with
    | nil =>
      cases l2 with
      | nil => rfl
      | cons c cs => simp [hasSubList, isPreOf]
    | cons a as => simp [hasSubList, List.isEmpty] at h
  | cons c cs ih =>
    simp only [hasSubList, Bool.or_eq_true] at h
    simp only [List.cons_append, hasSubList, Bool.or_eq_true]
    rcases h with h | h
    · exact Or.inl (isPreOf_append l2 h)
    · exact Or.inr (ih h)

theorem strContains_append (s s2 pat : String)
    (h : strContains s pat = true) : strContains (s ++ s2) pat = true := by
  unfold strContains at h ⊢
  rw [String.data_append]
  exact hasSubList_append _ _ _ h

/-- The total-script timeout message contains the substring `timeout` for
every configured budget. -/
theorem totalTimeoutMsg_contains (t : Nat) :
    strContains (totalTimeoutMsg t) "timeout" = true := by
  unfold totalTimeoutMsg
  have h1 : strContains "Total execution timeout exceeded (" "timeout" = true := by
    decide
  exact strContains_append _ _ _ (strContains_append _ _ _ h1)

theorem runScript_nav_mod (t a : Nat) (steps : List ScriptStep) :
    ∀ (i c : Nat),
      ((runScript t a steps i c).navInvoked).all (fun j => j % 4 == 0) = true := by
  induction steps with
  | nil => intro i c; rfl
  | cons st rest ih =>
    intro i c
    simp only [runScript]
    split
    · rfl
    · split
      · rfl
      · split
        · rename_i hcond
          rw [Bool.and_eq_true] at hcond
          simp only [List.all_cons, Bool.and_eq_true]
          exact ⟨hcond.1, ih (i + 1) _⟩
        · exact ih (i + 1) c

theorem runScript_navCount_le (t a : Nat) (steps : List ScriptStep) :
    ∀ (i c : Nat), (runScript t a steps i c).navCount ≤ max c 2 := by
  induction steps with
  | nil => intro i c; exact Nat.le_max_left c 2
  | cons st rest ih =>
    intro i c
    simp only [runScript]
    split
    · exact Nat.le_max_left c 2
    · split
      · exact Nat.le_max_left c 2
      · split
        · rename_i hcond
          rw [Bool.and_eq_true, decide_eq_true_eq] at hcond
          have h2 := ih (i + 1) (if st.navWouldSucceed then c + 1 else c)
          have hle : (if st.navWouldSucceed then c + 1 else c) ≤ 2 := by
            split <;> omega
          dsimp only
          omega
        · have h2 := ih (i + 1) c
          dsimp only
          omega

theorem bucket_pairwise {α : Type} (f : α → Nat) {ps : List Nat}
    (hps : List.Pairwise (· ≤ ·) ps) (l : List α) :
    List.Pairwise (fun a b => f a ≤ f b)
      (ps.flatMap fun p => l.filter fun t => f t == p) := by
  induction hps with
  | nil => simp
  | @cons p qs hhead htail ih =>
    simp only [List.flatMap_cons]
    rw [List.pairwise_append]
    refine ⟨?_, ih, ?_⟩
    · apply List.pairwise_of_forall_mem_list
      intro x hx y hy
      have hfx : f x = p := by simpa using (List.mem_filter.mp hx).2
      have hfy : f y = p := by simpa using (List.mem_filter.mp hy).2
      omega
    · intro x hx y hy
      have hfx : f x = p := by simpa using (List.mem_filter.mp hx).2
      obtain ⟨q, hq, hyq⟩ := List.mem_flatMap.mp hy
      have hfy : f y = q := by simpa using (List.mem_filter.mp hyq).2
      have hpq : p ≤ q := hhead q hq
      omega

theorem bucket_flatMap_nil {α : Type} (f : α → Nat) (ps : List Nat) :
    (ps.flatMap fun p => ([] : List α).filter fun t => f t == p) = [] := by
  induction ps with
  | nil => rfl
  | cons q qs ih =>
    simp only [List.filter_nil] at ih ⊢
    simp only [List.flatMap_cons, List.nil_append, ih]

theorem bucket_skip {α : Type} (f : α → Nat) (t : α) (rest : List α) :
    ∀ (ps : List Nat), f t ∉ ps →
      (ps.flatMap fun p => (t :: rest).filter fun x => f x == p) =
        ps.flatMap fun p => rest.filter fun x => f x == p := by
  intro ps
  induction ps with
  | nil => intro _; rfl
  | cons q qs ih =>
    intro h
    have hne : ¬ f t = q := fun he => h (by simp [he])
    have hrest : f t ∉ qs := fun hm => h (List.mem_cons_of_mem _ hm)
    rw [List.flatMap_cons, List.flatMap_cons, ih hrest]
    congr 1
    rw [List.filter_cons, if_neg (by simp [hne])]

theorem bucket_insert {α : Type} (f : α → Nat) (t : α) (rest : List α) :
    ∀ (ps : List Nat), ps.Nodup → f t ∈ ps →
      (ps.flatMap fun p => (t :: rest).filter fun x => f x == p).Perm
        (t :: ps.flatMap fun p => rest.filter fun x => f x == p) := by
  intro ps
  induction ps with
  | nil => intro _ h; cases h
  | cons q qs ih =>
    intro hnd hmem
    have hnd1 : q ∉ qs := (List.nodup_cons.mp hnd).1
    have hnd2 : qs.Nodup := (List.nodup_cons.mp hnd).2
    by_cases he : f t = q
    · have hskip := bucket_skip f t rest qs (by rw [he]; exact hnd1)
      rw [List.flatMap_cons, List.flatMap_cons, hskip, List.filter_cons,
        if_pos (by simp [he]), List.cons_append]
    · have hmem2 : f t ∈ qs := by
        rcases List.mem_cons.mp hmem with h1 | h1
        · exact absurd h1 he
        · exact h1
      rw [List.flatMap_cons, List.flatMap_cons, List.filter_cons,
        if_neg (by simp [he])]
      exact (List.Perm.append_left _ (ih hnd2 hmem2)).trans List.perm_middle

theorem bucket_perm {α : Type} (f : α → Nat) (ps : List Nat) (hnd : ps.Nodup) :
    ∀ (l : List α), (∀ x ∈ l, f x ∈ ps) →
      (ps.flatMap fun p => l.filter fun t => f t == p).Perm l := by
  intro l
  induction l with
  | nil => intro _; rw [bucket_flatMap_nil]
  | cons t rest ih =>
    intro hall
    have h1 := bucket_insert f t rest ps hnd (hall t (List.mem_cons_self t rest))
    have h2 := ih fun x hx => hall x (List.mem_cons_of_mem _ hx)
    exact h1.trans (h2.cons t)

theorem buttonPriorityOf_mem (t : String) :
    buttonPriorityOf t ∈ modalPriorityVals := by
  simp only [buttonPriorityOf]
  repeat' split
  all_goals decide

theorem runScript_nav_capped (t a : Nat) (steps : List ScriptStep) :
    ∀ (i c : Nat), (runScript t a steps i (c + 2)).navInvoked = [] := by
  induction steps with
  | nil => intro i c; rfl
  | cons st rest ih =>
    intro i c
    simp only [runScript]
    split
    · rfl
    · split
      · rfl
      · split
        · rename_i hcond
          rw [Bool.and_eq_true, decide_eq_true_eq] at hcond
          omega
        · exact ih (i + 1) c

/-! ## Claim theorems -/

/-- Claim C1, counterexample: with per-action budget `timeouts.action = 5`
seconds, a `Wait` descriptor requesting 10 seconds does NOT raise the timeout
error: the wait is capped at `actionTimeout - 1000` ms (here 4000 ms) and
`executeAction` returns normally, so `executeActions` goes on to execute the
following action of the script (two actions executed, outcome ok) — contrary
to the claim that the Timeout error is raised and no further actions run. -/
theorem claim_C1_cx :
    execWaitInner 5 (some 10) 0 = .ok 4000 ∧
      runScript 300 5
          [⟨.wait (some 10), ⟨.ok (), 0⟩, 0, false⟩,
           ⟨.wait (some 10), ⟨.ok (), 0⟩, 4000, false⟩] 0 0 =
        { executed := 2, navInvoked := [0], navCount := 0, clicks := 0,
          outcome := .ok () } :=
  ⟨by rfl, by rfl⟩

/-- Claim C1, amended: whenever the per-action budget is at least 2 seconds, a
`Wait` action — including one whose requested duration exceeds the budget —
is capped at `min(duration, budget - 1s)` milliseconds and completes without
raising any error, so `executeActions` continues with the next action. -/
theorem claim_C1_amended (s d : Nat) (env : ActOutcome) (hs : 2 ≤ s) :
    execWaitInner s (some d) 0 =
        .ok (min ((if d = 0 then 1 else d) * 1000) (s * 1000 - 1000)) ∧
      executeActionCaught (.wait (some d)) s 0 env =
        { result := .ok (), clicks := 0 } := by
  have hw : execWaitInner s (some d) 0 =
      .ok (min ((if d = 0 then 1 else d) * 1000) (s * 1000 - 1000)) := by
    simp only [execWaitInner]
    rw [if_neg (by omega)]
    have htn : ((s * 1000 : Nat) : Int) - ((0 : Nat) : Int) - 1000 =
        ((s * 1000 - 1000 : Nat) : Int) := by omega
    rw [if_neg (by omega), htn, Int.toNat_natCast]
    have hd : (match some d with
        | none => 1
        | some 0 => 1
        | some d => d) = (if d = 0 then 1 else d) := by
      cases d <;> rfl
    rw [hd]
    have h1 : 1000 ≤ (if d = 0 then 1 else d) * 1000 := by
      split <;> omega
    have h2 : 1000 ≤ s * 1000 - 1000 := by omega
    have hpos : 0 < min ((if d = 0 then 1 else d) * 1000) (s * 1000 - 1000) :=
      lt_min (by omega) (by omega)
    have hlt : 0 + min ((if d = 0 then 1 else d) * 1000) (s * 1000 - 1000) <
        s * 1000 := by
      have := min_le_right ((if d = 0 then 1 else d) * 1000) (s * 1000 - 1000)
      omega
    rw [if_pos hpos, if_pos hlt, if_neg (by omega), Nat.zero_add]
  refine ⟨hw, ?_⟩
  simp only [executeActionCaught, executeActionInner, hw, Except.map]

/-- Claim C1, amended, witness at budget 5 s and requested duration 10 s. -/
theorem claim_C1_amended_w :
    execWaitInner 5 (some 10) 0 =
        .ok (min ((if (10 : Nat) = 0 then 1 else 10) * 1000) (5 * 1000 - 1000)) ∧
      executeActionCaught (.wait (some 10)) 5 0 ⟨.ok (), 0⟩ =
        { result := .ok (), clicks := 0 } :=
  claim_C1_amended 5 10 ⟨.ok (), 0⟩ (by decide)

/-- Claim C2: `executeAction` propagates an error to its caller exactly when
the raised error's message contains the substring `timeout`; every other
failure of the action body is swallowed (the wrapped result is ok), so
`executeActions` continues with the next action — witnessed by the two
concrete runs: a non-timeout failure leaves the two-action script completing
both actions, while a raised `Action timeout` aborts after the first. -/
theorem claim_C2 (a : ActionConfig) (s e0 : Nat) (env : ActOutcome)
    (msg : String) :
    ((executeActionCaught a s e0 env).result = .error msg ↔
        ((executeActionInner a s e0 env).result = .error msg ∧
          strContains msg "timeout" = true)) ∧
      runScript 300 20
          [⟨.keypress (some "x") none, ⟨.error "selector not found", 0⟩, 0, false⟩,
           ⟨.wait (some 1), ⟨.ok (), 0⟩, 500, false⟩] 0 0 =
        { executed := 2, navInvoked := [0], navCount := 0, clicks := 0,
          outcome := .ok () } ∧
      runScript 300 20
          [⟨.keypress (some "x") none, ⟨.error raceTimeoutMsg, 0⟩, 0, false⟩,
           ⟨.wait (some 1), ⟨.ok (), 0⟩, 500, false⟩] 0 0 =
        { executed := 1, navInvoked := [], navCount := 0, clicks := 0,
          outcome := .error raceTimeoutMsg } := by
  refine ⟨?_, rfl, rfl⟩
  unfold executeActionCaught
  cases h : (executeActionInner a s e0 env).result with
  | ok u =>
    simp only [h]
    constructor
    · intro he; exact absurd he (by simp)
    · intro he; exact absurd he.1 (by simp)
  | error e =>
    simp only [h]
    by_cases hc : strContains e "timeout" = true
    · rw [if_pos hc]
      constructor
      · intro he
        have : e = msg := by
          have := Except.error.inj he
          exact this
        subst this
        exact ⟨rfl, hc⟩
      · intro he; exact he.1
    · rw [if_neg hc]
      constructor
      · intro he; exact absurd he (by simp)
      · intro he
        have : e = msg := Except.error.inj he.1
        subst this
        exact absurd he.2 hc

/-- Claim C3, counterexample: a page whose canvas has drawn content and which
shows a visible modal with a `Tutorial` button is classified as Playing
(`true`) by the code, while the claim's classification rule — Playing iff
(signal 1 or signal 3) and no blocking tutorial modal — yields `false` on the
same page: the tutorial check does not veto the canvas signal 2, because the
canvas block returns early. -/
theorem claim_C3_cx :
    isGamePlayingCore
        { scoreTexts := [], canvas := some ⟨100, 100, .drawnContent⟩,
          boardChildren := [], tiles := [],
          modals := [⟨true, ["Tutorial"]⟩] } = true ∧
      claimC3Playing
        { scoreTexts := [], canvas := some ⟨100, 100, .drawnContent⟩,
          boardChildren := [], tiles := [],
          modals := [⟨true, ["Tutorial"]⟩] } = false :=
  ⟨rfl, rfl⟩

/-- Claim C3, amended: the classifier returns Playing iff the canvas signal 2
fires (positively-sized canvas with drawn content, or one that cannot be
sampled) OR ((signal 1 or signal 3) holds and no blocking tutorial modal was
found); consequently the tutorial-modal check of step 4 can veto signals 1
and 3 but not the canvas signal 2, which returns early. -/
theorem claim_C3_amended (p : PageState) :
    isGamePlayingCore p =
      (canvasSignal p.canvas ||
        ((hasActiveScore p || hasGameContent p) && !hasBlockingModal p)) := by
  unfold isGamePlayingCore
  cases h : canvasSignal p.canvas <;> simp [h]

/-- Claim C4, counterexample: on the candidate set `["dismiss", "ok"]` the
Overlay Resolver attempts `"ok"` before `"dismiss"` (the code's priority
table has no tier for `dismiss`/`no thanks`, so `"dismiss"` falls to the
default rank 999 while `"ok"` ranks 5), although the claim's tiers place
`dismiss` (tier 2) strictly above `ok` (tier 4): a lower-tier button is
attempted before a present higher-tier one. -/
theorem claim_C4_cx :
    modalAttemptOrder ["dismiss", "ok"] = ["ok", "dismiss"] ∧
      claimTierOf "dismiss" = 2 ∧ claimTierOf "ok" = 4 :=
  ⟨rfl, rfl, rfl⟩

/-- Claim C4, amended: `handleModalsAndDialogs` attempts the candidate
buttons in ascending order of the code's priority table — (1) `start new
game`; (2) `new game`; (3) `skip`/`got it`; (4) `play`/`start`/`begin`;
(5) `ok`/`continue`/`next`; unmatched texts last — i.e. the attempt order is
a permutation of the candidates that is sorted by that priority, so no button
is attempted before a present button of strictly higher code priority. -/
theorem claim_C4_amended (texts : List String) :
    List.Pairwise (fun a b => buttonPriorityOf a ≤ buttonPriorityOf b)
        (modalAttemptOrder texts) ∧
      (modalAttemptOrder texts).Perm texts := by
  constructor
  · exact bucket_pairwise buttonPriorityOf (by decide) texts
  · exact bucket_perm buttonPriorityOf modalPriorityVals (by decide) texts
      fun x _ => buttonPriorityOf_mem x

/-- Claim C5: for every (possibly adversarial, cyclic) sequence of page
states, the nested-overlay resolver uses recursion depth at most its depth
budget — in particular at most 3 for the default `maxDepth = 3` — because
each recursive call passes `maxDepth - 1`, and a call with `maxDepth ≤ 0`
returns `false` immediately, performing no activation. -/
theorem claim_C5 (env : Nat → ModalRound) (k : Nat) :
    (nestedModalRun env k 3).depth ≤ 3 ∧
      (∀ d, (nestedModalRun env k d).depth ≤ d) ∧
      nestedModalRun env k 0 =
        { handled := false, depth := 0, activations := 0 } := by
  have hgen : ∀ (d k : Nat), (nestedModalRun env k d).depth ≤ d := by
    intro d
    induction d with
    | zero => intro k; exact Nat.le_refl 0
    | succ d ih =>
      intro k
      simp only [nestedModalRun]
      split
      · exact Nat.succ_le_succ (Nat.zero_le d)
      · split
        · exact Nat.succ_le_succ (Nat.zero_le d)
        · exact Nat.succ_le_succ (ih (k + 1))
  exact ⟨hgen 3 k, fun d => hgen d k, rfl⟩

/-- Claim C6: whenever the `executeActions` loop reaches an action with the
aggregate elapsed wall-clock above `timeouts.total * 1000` ms, it raises the
total-timeout error before executing that action (zero actions of the
remaining script execute), and that error's message contains the substring
`timeout`, so it is of the propagating fatal class. -/
theorem claim_C6 (t a : Nat) (st : ScriptStep) (rest : List ScriptStep)
    (i c : Nat) (h : st.preElapsed > t * 1000) :
    runScript t a (st :: rest) i c =
        { executed := 0, navInvoked := [], navCount := c, clicks := 0,
          outcome := .error (totalTimeoutMsg t) } ∧
      strContains (totalTimeoutMsg t) "timeout" = true := by
  refine ⟨?_, totalTimeoutMsg_contains t⟩
  simp only [runScript]
  rw [if_pos h]

/-- Claim C6, witness: total budget 1 s, an action reached at elapsed 2000
ms. -/
theorem claim_C6_w :
    runScript 1 5 [⟨.wait (some 1), ⟨.ok (), 0⟩, 2000, false⟩] 0 0 =
        { executed := 0, navInvoked := [], navCount := 0, clicks := 0,
          outcome := .error (totalTimeoutMsg 1) } ∧
      strContains (totalTimeoutMsg 1) "timeout" = true :=
  claim_C6 1 5 ⟨.wait (some 1), ⟨.ok (), 0⟩, 2000, false⟩ [] 0 0 (by decide)

/-- Claim C7, counterexample: `loadConfig` accepts a policy with
`total = 1 < 5 = action` (no cross-field validation), and `executeActions`
started with exactly that policy does not reject the script at start: the
first action executes and the run completes normally — contrary to the claim
that such a policy is rejected at the start of execution. -/
theorem claim_C7_cx :
    (loadTimeouts none (some 5) (some 1)).total <
        (loadTimeouts none (some 5) (some 1)).action ∧
      runScript 1 5 [⟨.wait (some 1), ⟨.ok (), 0⟩, 0, false⟩] 0 0 =
        { executed := 1, navInvoked := [0], navCount := 0, clicks := 0,
          outcome := .ok () } :=
  ⟨by decide, rfl⟩

/-- Claim C7, amended: the invariant `totalScriptBudget ≥ perActionBudget` is
not enforced anywhere — neither by the config loader nor at script start:
for every policy with `total < action`, every script whose first action is
reached within the total budget has that action executed (never a rejection
at start), and the loader accepts such a policy field-by-field. -/
theorem claim_C7_amended (totalS actionS : Nat) (st : ScriptStep)
    (rest : List ScriptStep) (i c : Nat) (hpol : totalS < actionS)
    (hre : st.preElapsed ≤ totalS * 1000) :
    1 ≤ (runScript totalS actionS (st :: rest) i c).executed ∧
      (loadTimeouts none (some actionS) (some totalS)).total <
        (loadTimeouts none (some actionS) (some totalS)).action := by
  constructor
  · simp only [runScript]
    rw [if_neg (by omega)]
    split
    · exact Nat.le_refl 1
    · split
      · exact Nat.succ_le_succ (Nat.zero_le _)
      · exact Nat.succ_le_succ (Nat.zero_le _)
  · simpa [loadTimeouts, defaultTimeouts] using hpol

/-- Claim C7, amended, witness at total 1 s, action 5 s. -/
theorem claim_C7_amended_w :
    1 ≤ (runScript 1 5 [⟨.wait (some 1), ⟨.ok (), 0⟩, 0, false⟩] 0 0).executed ∧
      (loadTimeouts none (some 5) (some 1)).total <
        (loadTimeouts none (some 5) (some 1)).action :=
  claim_C7_amended 1 5 ⟨.wait (some 1), ⟨.ok (), 0⟩, 0, false⟩ [] 0 0
    (by decide) (by decide)

/-- Claim C8: `executeActions` performs at most 2 successful level
navigations per run; the level-navigation check only ever runs at loop
indices `i` with `i % 4 = 0`; once the cap of 2 is reached no further
invocation happens; and on a script of 9 actions where every check would
succeed (e.g. a run of level-complete screens), the Navigator advances
exactly twice (at indices 0 and 4) and the script still executes all 9
actions. -/
theorem claim_C8 (t a : Nat) (steps : List ScriptStep) :
    (runScript t a steps 0 0).navCount ≤ 2 ∧
      ((runScript t a steps 0 0).navInvoked).all (fun j => j % 4 == 0) = true ∧
      (∀ i c, (runScript t a steps i (c + 2)).navInvoked = []) ∧
      runScript 300 20
          (List.replicate 9 ⟨.wait (some 1), ⟨.ok (), 0⟩, 0, true⟩) 0 0 =
        { executed := 9, navInvoked := [0, 4], navCount := 2, clicks := 0,
          outcome := .ok () } := by
  refine ⟨?_, runScript_nav_mod t a steps 0 0,
    fun i c => runScript_nav_capped t a steps i c, rfl⟩
  have h := runScript_navCount_le t a steps 0 0
  simpa using h

/-- Claim C9: the State Classifier never propagates an exception to its
caller: whenever its body would raise (liveness probe rethrow or rejected
evaluation), the outermost catch makes `isGamePlaying` return `false`, and
when its own `timeoutMs` timer wins the race it likewise returns `false`. -/
theorem claim_C9 (l : Except String Unit) (ev : EvalResult) :
    (∀ m, isGamePlayingBody l ev = .error m → isGamePlayingSafe l ev = false) ∧
      isGamePlayingSafe l .timedOut = false := by
  constructor
  · intro m hm
    unfold isGamePlayingSafe
    rw [hm]
  · unfold isGamePlayingSafe isGamePlayingBody
    cases l with
    | ok u => rfl
    | error e =>
      dsimp only
      by_cases hc : strContains e "closed" = true
      · rw [if_pos hc]
      · rw [if_neg hc]

/-- Claim C9, witness: a failing liveness probe (message without `closed`)
makes the body raise, and the classifier still returns `false`. -/
theorem claim_C9_w :
    isGamePlayingBody (.error "boom")
        (.ok { scoreTexts := [], canvas := none, boardChildren := [],
               tiles := [], modals := [] }) = .error "boom" ∧
      isGamePlayingSafe (.error "boom")
        (.ok { scoreTexts := [], canvas := none, boardChildren := [],
               tiles := [], modals := [] }) = false :=
  ⟨rfl, (claim_C9 (.error "boom")
      (.ok { scoreTexts := [], canvas := none, boardChildren := [],
             tiles := [], modals := [] })).1 "boom" rfl⟩

/-- Claim C10: a `Click` descriptor with neither selector nor coordinates
makes the body of `executeAction` raise the `Click action requires either a
selector or x/y coordinates` error without performing any click; the message
does not contain `timeout`, so the catch clause swallows it and
`executeAction` returns normally (still zero clicks), and `executeActions`
continues with the next action of the script (both actions of the concrete
two-action script execute, outcome ok). -/
theorem claim_C10 (s : Nat) (env : ActOutcome) :
    executeActionInner (.click none none none) s 0 env =
        { result := .error clickReqMsg, clicks := 0 } ∧
      strContains clickReqMsg "timeout" = false ∧
      executeActionCaught (.click none none none) s 0 env =
        { result := .ok (), clicks := 0 } ∧
      runScript 300 20
          [⟨.click none none none, ⟨.ok (), 0⟩, 0, false⟩,
           ⟨.wait (some 1), ⟨.ok (), 0⟩, 1000, false⟩] 0 0 =
        { executed := 2, navInvoked := [0], navCount := 0, clicks := 0,
          outcome := .ok () } :=
  ⟨rfl, rfl, rfl, rfl⟩

end DreamUp
